import Mathlib

/-!
Verification of the query-intent analysis, retrieval-planning and resilient
external-call pipeline of the competitive-analysis assistant.

The Python sources are shallowly embedded: strings are Lean `String`s,
Python text operations (`lower`, `strip`, `split`, `replace`, substring
`in`, `str.capitalize`) are modelled character-by-character over `List
Char`, exceptions become an explicit `PyExc` type, the external provider
becomes a function from the attempt index to that attempt's outcome, and
blocking `time.sleep` calls are recorded in a trace instead of executed.
-/

/-- Python `needle` is a leading segment of `hay` (character-wise equality). -/
def leadEq : List Char → List Char → Bool
  | [], _ => true
  | _ :: _, [] => false
  | a :: as, b :: bs => a == b && leadEq as bs

/-- Python substring search: `subFind hay needle` is `needle in hay`. -/
def subFind : List Char → List Char → Bool
  | [], needle => needle.isEmpty
  | c :: t, needle => leadEq needle (c :: t) || subFind t needle

/-- Python membership test `needle in hay` on strings. -/
def pyIn (needle hay : String) : Bool := subFind hay.data needle.data

/-- Python `str.lower()`. -/
def pyLower (s : String) : String := String.mk (s.data.map Char.toLower)

/-- Python `str.replace(' ', '')`. -/
def removeSpaces (s : String) : String := String.mk (s.data.filter (fun c => !(c == ' ')))

/-- Python `str.replace(' ', '-')`. -/
def spacesToHyphens (s : String) : String :=
  String.mk (s.data.map (fun c => if c == ' ' then '-' else c))

/-- Python `str.strip()`: drop whitespace from both ends. -/
def pyStrip (s : String) : String :=
  String.mk (((s.data.dropWhile Char.isWhitespace).reverse.dropWhile Char.isWhitespace).reverse)

/-- Helper for `pySplitWs`: walk the characters keeping the current word reversed. -/
def wordsAux : List Char → List Char → List String
  | [], acc => if acc.isEmpty then [] else [String.mk acc.reverse]
  | c :: cs, acc =>
    if c.isWhitespace then
      if acc.isEmpty then wordsAux cs [] else String.mk acc.reverse :: wordsAux cs []
    else wordsAux cs (c :: acc)

/-- Python `str.split()` with no argument: split on whitespace runs, no empty parts. -/
def pySplitWs (s : String) : List String := wordsAux s.data []

/-- Python `str.capitalize()`: first character upper-cased, the rest lower-cased. -/
def pyCapitalize (w : String) : String :=
  match w.data with
  | [] => ""
  | c :: cs => String.mk (c.toUpper :: cs.map Char.toLower)

/-- Python `sep.join(ws)`. -/
def joinWith (sep : String) : List String → String
  | [] => ""
  | [w] => w
  | w :: ws => w ++ sep ++ joinWith sep ws

/-- Python list membership by equality, as the source's `x not in mentioned` uses it. -/
def pyHas (l : List String) (x : String) : Bool :=
  match l with
  | [] => false
  | y :: t => (y == x) || pyHas t x

/-! ## Intent Classifier (src/query_analyzer.py, analyze_query_intent) -/

/-- The intent dictionary built by `analyze_query_intent`. -/
structure IntentAnalysis where
  query_type : String
  competitors_mentioned : List String
  aspects_requested : List String
  comparison_requested : Bool
  action_keywords : List String
  query_complexity : String
deriving DecidableEq, Repr

/-- The three lookup variants tried for one competitor name (query_analyzer.py:31-35). -/
def competitorVariations (c : String) : List String :=
  [pyLower c, removeSpaces (pyLower c), spacesToHyphens (pyLower c)]

/-- Display form of a competitor name (query_analyzer.py:40): capitalize each word. -/
def formatCompetitorName (c : String) : String :=
  joinWith " " ((pySplitWs c).map pyCapitalize)

/-- One iteration of the inner variation loop (query_analyzer.py:37-42): append the
formatted name when the variation occurs in the lowered query and it is not yet listed. -/
def variationStep (query_lower f : String) (acc : List String) (v : String) : List String :=
  if pyIn v query_lower then
    if pyHas acc f then acc else acc ++ [f]
  else acc

/-- The competitor scan of `analyze_query_intent` (query_analyzer.py:29-42). -/
def addCompetitor (query_lower c : String) (acc : List String) : List String :=
  (competitorVariations c).foldl (variationStep query_lower (formatCompetitorName c)) acc

/-- Competitors collected over the whole competitor list, in list order. -/
def mentionedCompetitors (query_lower : String) (competitor_list : List String) : List String :=
  competitor_list.foldl (fun acc c => addCompetitor query_lower c acc) []

def comparison_keyword_list : List String :=
  ["compare", "versus", "vs", "difference", "better", "against", "between"]

def aspect_keyword_table : List (String × List String) :=
  [("marketing", ["marketing", "strategy", "promotion", "advertising", "campaign", "sales"]),
   ("financial", ["financial", "revenue", "profit", "funding", "valuation", "growth", "money"]),
   ("product", ["product", "features", "technology", "solution", "platform", "service"]),
   ("strengths", ["strength", "advantage", "benefit", "strong", "good", "pros"]),
   ("weaknesses", ["weakness", "disadvantage", "problem", "weak", "bad", "cons", "issue"])]

def action_keyword_list : List String :=
  ["analyze", "explain", "describe", "summarize", "evaluate", "assess", "review"]

/-- Shallow embedding of `analyze_query_intent` (src/query_analyzer.py:11-77). -/
def analyze_query_intent (query : String) (competitor_list : List String) : IntentAnalysis :=
  let query_lower := pyLower query
  let mentioned := mentionedCompetitors query_lower competitor_list
  let comparison := comparison_keyword_list.any (fun k => pyIn k query_lower)
  let qtype := if comparison then "comparison" else "general"
  let complexity0 := if comparison then "complex" else "simple"
  let aspects := aspect_keyword_table.foldl
    (fun acc p => if p.2.any (fun k => pyIn k query_lower) then acc ++ [p.1] else acc) []
  let actions := action_keyword_list.foldl
    (fun acc k => if pyIn k query_lower then acc ++ [k] else acc) []
  let indicators := mentioned.length + aspects.length
  let complexity :=
    if 2 < indicators ∨ comparison = true then "complex"
    else if 0 < indicators then "moderate"
    else complexity0
  ⟨qtype, mentioned, aspects, comparison, actions, complexity⟩

/-! ## Sub-Goal Planner (src/query_analyzer.py, plan_sub_goals) -/

/-- Shallow embedding of `plan_sub_goals` (src/query_analyzer.py:79-117); the Python
`extend`/`append` calls on the fresh list are collapsed into the literal lists
they produce, in the source's branch order. -/
def plan_sub_goals (intent : IntentAnalysis) : List String :=
  let base : List String :=
    if intent.comparison_requested then
      if 2 ≤ intent.competitors_mentioned.length then
        ["retrieve_specific_competitors", "analyze_competitor_data",
         "perform_comparison", "generate_insights"]
      else
        ["retrieve_relevant_data", "identify_comparison_candidates", "perform_comparison"]
    else if intent.competitors_mentioned.isEmpty = false then
      ["retrieve_specific_competitors"] ++
        (if intent.aspects_requested.isEmpty = false then
          ["analyze_specific_aspects", "extract_relevant_information"]
        else ["provide_comprehensive_analysis"])
    else
      ["retrieve_relevant_data", "analyze_market_landscape", "provide_general_insights"]
  if intent.query_complexity = "complex" then base ++ ["synthesize_complex_analysis"] else base

/-- The four-branch planning policy exactly as the specification words it (spec
section 4.2), written independently of `plan_sub_goals` for comparison. -/
def specPlanPolicy (intent : IntentAnalysis) : List String :=
  (if intent.comparison_requested = true ∧ 2 ≤ intent.competitors_mentioned.length then
    ["retrieve_specific_competitors", "analyze_competitor_data",
     "perform_comparison", "generate_insights"]
  else if intent.comparison_requested = true ∧ intent.competitors_mentioned.length < 2 then
    ["retrieve_relevant_data", "identify_comparison_candidates", "perform_comparison"]
  else if intent.comparison_requested = false ∧ intent.competitors_mentioned ≠ [] then
    ["retrieve_specific_competitors"] ++
      (if intent.aspects_requested ≠ [] then
        ["analyze_specific_aspects", "extract_relevant_information"]
      else ["provide_comprehensive_analysis"])
  else
    ["retrieve_relevant_data", "analyze_market_landscape", "provide_general_insights"])
  ++ (if intent.query_complexity = "complex" then ["synthesize_complex_analysis"] else [])

/-! ## Configuration constants (src/config.py) -/

def SIMILARITY_TOP_K : Nat := 5

def MAX_HISTORY_SIZE : Nat := 5

/-- Retrieval depth chosen by the orchestrator (src/react_agent.py:55-57):
the base constant, raised to `min 8 (base + 3)` for complex queries. -/
def retrievalDepth (intent : IntentAnalysis) : Nat :=
  if intent.query_complexity = "complex" then min 8 (SIMILARITY_TOP_K + 3)
  else SIMILARITY_TOP_K

/-! ## Error taxonomy of the resilient call layer (src/vector_store.py) -/

/-- The Cohere exception classes the source imports (vector_store.py:15-19). -/
inductive CohereKind where
  | tooManyRequests
  | unauthorizedErr
  | badRequest
  | notFoundErr
  | internalServer
  | serviceUnavailable
  | forbiddenErr
  | invalidToken
deriving DecidableEq, Repr

/-- A raised Python exception, split by the handler that would catch it:
the `COHERE_EXCEPTIONS` tuple, the network/timeout tuple, `ValueError`,
`RuntimeError`, or anything else (caught only by `except Exception`). -/
inductive PyExc where
  | cohereErr (k : CohereKind) (msg : String)
  | networkErr (msg : String)
  | valueError (msg : String)
  | runtimeError (msg : String)
  | otherErr (msg : String)
deriving DecidableEq, Repr

/-- Python `str(e)`: the exception's message. -/
def pyExcMsg : PyExc → String
  | .cohereErr _ m => m
  | .networkErr m => m
  | .valueError m => m
  | .runtimeError m => m
  | .otherErr m => m

/-- Whether the exception belongs to the `COHERE_EXCEPTIONS` tuple. -/
def isCohereExc : PyExc → Bool
  | .cohereErr _ _ => true
  | _ => false

/-- Embedding of `is_rate_limit_error` (vector_store.py:37-39). -/
def is_rate_limit_error (e : PyExc) : Bool :=
  (match e with | .cohereErr .tooManyRequests _ => true | _ => false)
    || pyIn "rate_limit" (pyLower (pyExcMsg e)) || pyIn "429" (pyExcMsg e)

/-- Embedding of `is_auth_error` (vector_store.py:41-44). -/
def is_auth_error (e : PyExc) : Bool :=
  (match e with
   | .cohereErr .unauthorizedErr _ => true
   | .cohereErr .invalidToken _ => true
   | .cohereErr .forbiddenErr _ => true
   | _ => false)
    || pyIn "invalid" (pyLower (pyExcMsg e)) || pyIn "unauthorized" (pyLower (pyExcMsg e))

/-- What the external provider does on one attempt: return a payload or raise. -/
inductive ProviderStep where
  | ok (resp : String)
  | exn (e : PyExc)

/-- Observable behaviour of one resilient call: the value handed back (`none`
models Python falling off the retry loop and returning `None`), how many times
the provider was invoked, and the `time.sleep` durations in seconds. -/
structure CallTrace where
  result : Option String
  calls : Nat
  sleeps : List Rat
deriving DecidableEq, Repr

/-! ## Fallback strings returned by safe_query_engine_call (vector_store.py:341-413) -/

def msgEmptyFallback : String :=
  "I apologize, but I couldn't generate a meaningful response to your query. Please try rephrasing your question."

def msgRateLimited : String :=
  "I'm currently experiencing rate limits. Please try again in a few minutes."

def msgTooComplex : String :=
  "Your query is too complex. Please try breaking it into smaller, more specific questions."

def msgInvalidQuery : String :=
  "There was an issue processing your query. Please rephrase your question and try again."

def msgApiError : String :=
  "I encountered an API error while processing your query. Please try again later."

def msgNetworkTrouble : String :=
  "I'm having trouble connecting to the service. Please check your internet connection and try again."

def msgUnexpected : String :=
  "I encountered an unexpected error while processing your query. Please try again or contact support if the issue persists."

def msgEmptyQuery : String := "Query cannot be empty"

def msgTooShort : String := "Query too short. Please provide a more detailed question."

/-- The `except ValueError` handler's return value (vector_store.py:400-404). -/
def msgValidation (m : String) : String := "Query validation error: " ++ m

/-! ## safe_query_engine_call (src/vector_store.py:341-413) -/

/-- One pass of the retry loop of `safe_query_engine_call`, indexed by the current
`attempt` and the remaining loop iterations (`fuel`, which starts at
`max_retries` and matches `max_retries - attempt` throughout). Each branch
mirrors the source: the validation `ValueError`s are caught by the function's
own `except ValueError` and returned; a rate-limited Cohere error sleeps
`2 ^ attempt * 2` seconds and retries; token-limit and `"invalid"` messages
return at once; network errors sleep `2 ^ attempt`; everything else sleeps 1
second; exhausted budgets return the classified fallback string. -/
def safeQueryAux (provider : Nat → ProviderStep) (query : String) (max_retries : Nat) :
    Nat → Nat → CallTrace
  | _, 0 => ⟨none, 0, []⟩
  | attempt, fuel + 1 =>
    if pyStrip query = "" then ⟨some (msgValidation msgEmptyQuery), 0, []⟩
    else if (pyStrip query).length < 3 then ⟨some (msgValidation msgTooShort), 0, []⟩
    else
      match provider attempt with
      | .ok resp =>
        if pyStrip resp = "" then
          if attempt < max_retries - 1 then
            let r := safeQueryAux provider query max_retries (attempt + 1) fuel
            ⟨r.result, r.calls + 1, (1 : Rat) :: r.sleeps⟩
          else ⟨some msgEmptyFallback, 1, []⟩
        else ⟨some resp, 1, []⟩
      | .exn e =>
        match e with
        | .cohereErr k m =>
          if is_rate_limit_error (.cohereErr k m) then
            if attempt < max_retries - 1 then
              let r := safeQueryAux provider query max_retries (attempt + 1) fuel
              ⟨r.result, r.calls + 1, ((2 : Rat) ^ attempt * 2) :: r.sleeps⟩
            else ⟨some msgRateLimited, 1, []⟩
          else if pyIn "token" (pyLower m) && pyIn "limit" (pyLower m) then
            ⟨some msgTooComplex, 1, []⟩
          else if pyIn "invalid" (pyLower m) then ⟨some msgInvalidQuery, 1, []⟩
          else if attempt < max_retries - 1 then
            let r := safeQueryAux provider query max_retries (attempt + 1) fuel
            ⟨r.result, r.calls + 1, (1 : Rat) :: r.sleeps⟩
          else ⟨some msgApiError, 1, []⟩
        | .networkErr _ =>
          if attempt < max_retries - 1 then
            let r := safeQueryAux provider query max_retries (attempt + 1) fuel
            ⟨r.result, r.calls + 1, ((2 : Rat) ^ attempt) :: r.sleeps⟩
          else ⟨some msgNetworkTrouble, 1, []⟩
        | .valueError m => ⟨some (msgValidation m), 1, []⟩
        | .runtimeError _ =>
          if attempt < max_retries - 1 then
            let r := safeQueryAux provider query max_retries (attempt + 1) fuel
            ⟨r.result, r.calls + 1, (1 : Rat) :: r.sleeps⟩
          else ⟨some msgUnexpected, 1, []⟩
        | .otherErr _ =>
          if attempt < max_retries - 1 then
            let r := safeQueryAux provider query max_retries (attempt + 1) fuel
            ⟨r.result, r.calls + 1, (1 : Rat) :: r.sleeps⟩
          else ⟨some msgUnexpected, 1, []⟩

/-- Shallow embedding of `safe_query_engine_call` (src/vector_store.py:341-413):
run the retry loop from attempt 0 with `max_retries` iterations available. -/
def safe_query_engine_call (provider : Nat → ProviderStep) (query : String)
    (max_retries : Nat) : CallTrace :=
  safeQueryAux provider query max_retries 0 max_retries

/-! ## configure_embedding_for_search / for_indexing (src/vector_store.py:231-339) -/

/-- Result of a configuration call: normal return, a propagated exception, or
Python's implicit `None` when the loop runs zero iterations. -/
inductive CfgOutcome where
  | done
  | raised (e : PyExc)
  | offEnd
deriving DecidableEq, Repr

/-- Observable behaviour of one configuration call. -/
structure CfgTrace where
  outcome : CfgOutcome
  calls : Nat
  sleeps : List Rat
deriving DecidableEq, Repr

def msgNoApiKey : String := "COHERE_API_KEY is not set or is empty"

def msgCfgRate (what : String) : String :=
  "Rate limit exceeded while configuring " ++ what ++ " embedding"

def msgCfgInvalidKey (m : String) : String := "Invalid API key: " ++ m

def msgCfgFail (what m : String) : String :=
  "Failed to configure " ++ what ++ " embedding: " ++ m

def msgCfgFailAfter (what : String) (n : Nat) (m : String) : String :=
  "Failed to configure " ++ what ++ " embedding after " ++ toString n ++ " attempts: " ++ m

/-- Retry loop shared by `configure_embedding_for_search` and
`configure_embedding_for_indexing` (they differ only in the provider
`input_type` and in the word used inside their messages, `what`). A missing
API key raises `ValueError`, which this function's own `except Exception`
catches (there is no `except ValueError` here); a rate-limited Cohere error
sleeps 1 second; auth errors raise `ValueError` at once; other Cohere errors
and all remaining exceptions sleep 0.5 seconds; exhausted budgets raise
`RuntimeError`. -/
def cfgAux (what : String) (keyConfigured : Bool) (provider : Nat → ProviderStep)
    (max_retries : Nat) : Nat → Nat → CfgTrace
  | _, 0 => ⟨.offEnd, 0, []⟩
  | attempt, fuel + 1 =>
    if keyConfigured = false then
      if attempt < max_retries - 1 then
        let r := cfgAux what keyConfigured provider max_retries (attempt + 1) fuel
        ⟨r.outcome, r.calls, (1 / 2 : Rat) :: r.sleeps⟩
      else ⟨.raised (.runtimeError (msgCfgFailAfter what max_retries msgNoApiKey)), 0, []⟩
    else
      match provider attempt with
      | .ok _ => ⟨.done, 1, []⟩
      | .exn e =>
        if isCohereExc e then
          if is_rate_limit_error e then
            if attempt < max_retries - 1 then
              let r := cfgAux what keyConfigured provider max_retries (attempt + 1) fuel
              ⟨r.outcome, r.calls + 1, (1 : Rat) :: r.sleeps⟩
            else ⟨.raised (.runtimeError (msgCfgRate what)), 1, []⟩
          else if is_auth_error e then
            ⟨.raised (.valueError (msgCfgInvalidKey (pyExcMsg e))), 1, []⟩
          else if attempt < max_retries - 1 then
            let r := cfgAux what keyConfigured provider max_retries (attempt + 1) fuel
            ⟨r.outcome, r.calls + 1, (1 / 2 : Rat) :: r.sleeps⟩
          else ⟨.raised (.runtimeError (msgCfgFail what (pyExcMsg e))), 1, []⟩
        else
          if attempt < max_retries - 1 then
            let r := cfgAux what keyConfigured provider max_retries (attempt + 1) fuel
            ⟨r.outcome, r.calls + 1, (1 / 2 : Rat) :: r.sleeps⟩
          else ⟨.raised (.runtimeError (msgCfgFailAfter what max_retries (pyExcMsg e))), 1, []⟩

/-- Shallow embedding of `configure_embedding_for_search` (vector_store.py:231-284),
default `max_retries = 2`. -/
def configure_embedding_for_search (keyConfigured : Bool) (provider : Nat → ProviderStep)
    (max_retries : Nat) : CfgTrace :=
  cfgAux "search" keyConfigured provider max_retries 0 max_retries

/-- Shallow embedding of `configure_embedding_for_indexing` (vector_store.py:286-339). -/
def configure_embedding_for_indexing (keyConfigured : Bool) (provider : Nat → ProviderStep)
    (max_retries : Nat) : CfgTrace :=
  cfgAux "indexing" keyConfigured provider max_retries 0 max_retries

/-! ## Retrieval-and-Synthesis Orchestrator (src/react_agent.py) -/

/-- The external world as `execute_retrieval_and_analysis` sees it: whether the
API key is set, and the per-attempt behaviour of the search-configuration call
and of the query-engine call. The best-effort `configure_embedding_for_indexing`
at the end sits inside its own `try`/`except` whose result is discarded, so it
cannot influence the returned string and needs no field here. -/
structure AgentEnv where
  keyConfigured : Bool
  cfgSearchSteps : Nat → ProviderStep
  querySteps : Nat → ProviderStep

def msgReactConfigError (m : String) : String :=
  "âŒ Configuration Error: " ++ m ++
    "\n\nPlease check your API key and configuration settings."

def msgReactRateLimit : String :=
  "â° I'm currently experiencing rate limits with the API. Please try again in a few minutes."

def msgReactNetwork : String :=
  "ğŸŒ I'm having trouble connecting to the service. Please check your internet connection and try again."

def msgReactTechIssue (m : String) : String :=
  "âš ï¸ I encountered a technical issue while processing your query: " ++ m ++
    "\n\nPlease try again or rephrase your question."

def msgReactUnexpected : String :=
  "âŒ I encountered an unexpected error while processing your query. Please try again or contact support if the issue persists."

/-- Embedding of `enhance_response_based_on_intent` (react_agent.py:107-129). -/
def enhance_response_based_on_intent (base_response : String) (intent : IntentAnalysis) :
    String :=
  let enhanced := pyStrip base_response
  let metadata_parts : List String :=
    (if intent.competitors_mentioned.isEmpty = false then
      ["Companies: " ++ joinWith ", " intent.competitors_mentioned] else []) ++
    (if intent.aspects_requested.isEmpty = false then
      ["Focus: " ++ joinWith ", " intent.aspects_requested] else [])
  if metadata_parts.isEmpty = false then
    enhanced ++ "\n\n---\n" ++ joinWith " | " metadata_parts
  else enhanced

/-- Shallow embedding of `execute_retrieval_and_analysis` (react_agent.py:46-105).
The only statement of its `try` body that can raise is the
`configure_embedding_for_search()` call (the query call returns its fallback
strings instead of raising, and the trailing indexing reconfiguration swallows
its own exceptions), so the function matches on that call's outcome and the
three `except` clauses become the non-`done` arms. `str(response)` of Python's
`None` is the string "None", covered by `Option.getD`. -/
def execute_retrieval_and_analysis (query : String) (intent : IntentAnalysis)
    (env : AgentEnv) : String :=
  match (configure_embedding_for_search env.keyConfigured env.cfgSearchSteps 2).outcome with
  | .raised (.valueError m) => msgReactConfigError m
  | .raised (.runtimeError m) =>
    if pyIn "rate limit" (pyLower m) then msgReactRateLimit
    else if pyIn "network" (pyLower m) || pyIn "connection" (pyLower m) then msgReactNetwork
    else msgReactTechIssue m
  | .raised _ => msgReactUnexpected
  | _ =>
    enhance_response_based_on_intent
      ((safe_query_engine_call env.querySteps query 3).result.getD "None") intent

/-- Shallow embedding of `reason_and_act` (react_agent.py:19-44): analyse the
query, plan (the plan is only logged), and run the retrieval step. The outer
`except Exception` is unreachable in the model because
`execute_retrieval_and_analysis` already maps every exception to a string, so
`reason_and_act` is a total function into `String`. -/
def reason_and_act (query : String) (competitor_list : List String) (env : AgentEnv) :
    String :=
  execute_retrieval_and_analysis query (analyze_query_intent query competitor_list) env

/-! ## History Ledger (src/competitive_agent.py and src/history_manager.py) -/

/-- One entry of `CompetitiveAnalysisAgent.query_history` (competitive_agent.py:22-31). -/
structure QueryHistoryEntry where
  timestamp : String
  query : String
  response : String
  processing_time : Rat
deriving DecidableEq, Repr

/-- Embedding of `CompetitiveAnalysisAgent._add_to_history`
(competitive_agent.py:170-192): append, then `pop(0)` once when the length
exceeds `max_history_size`. -/
def agentAddToHistory (max_history_size : Nat) (history : List QueryHistoryEntry)
    (entry : QueryHistoryEntry) : List QueryHistoryEntry :=
  let h := history ++ [entry]
  if max_history_size < h.length then h.drop 1 else h

/-- Embedding of `CompetitiveAnalysisAgent.clear_history` (competitive_agent.py:236-239). -/
def clear_history (_history : List QueryHistoryEntry) : List QueryHistoryEntry := []

/-- The dictionary `get_history_stats` returns; the fastest/slowest keys are
absent from the empty-history dictionary, hence `Option`. -/
structure HistoryStats where
  total_queries : Nat
  avg_processing_time : Rat
  oldest_query : Option String
  newest_query : Option String
  fastest_query : Option Rat
  slowest_query : Option Rat
deriving DecidableEq, Repr

/-- Embedding of `CompetitiveAnalysisAgent.get_history_stats`
(competitive_agent.py:241-265): the empty history short-circuits to zero counts
before any average is formed; otherwise sum/len, first/last timestamps and
min/max of the processing times. -/
def get_history_stats : List QueryHistoryEntry → HistoryStats
  | [] => ⟨0, 0, none, none, none, none⟩
  | e0 :: rest =>
    let times := (e0 :: rest).map (fun e => e.processing_time)
    ⟨(e0 :: rest).length,
     times.sum / (times.length : Rat),
     some e0.timestamp,
     some (rest.getLastD e0).timestamp,
     some ((rest.map (fun e => e.processing_time)).foldl min e0.processing_time),
     some ((rest.map (fun e => e.processing_time)).foldl max e0.processing_time)⟩

/-- One record of the module-level ledger in history_manager.py. -/
structure HistoryRecord where
  timestamp : String
  query : String
  response : String
deriving DecidableEq, Repr

/-- Python `response[:200]`. -/
def strTake (n : Nat) (s : String) : String := String.mk (s.data.take n)

/-- Embedding of the module-level `add_to_history` (src/history_manager.py:13-28):
the stored response is truncated to 200 characters plus "..." when longer than
200; then entries beyond `MAX_HISTORY_SIZE` evict the oldest. -/
def hmAddToHistory (history : List HistoryRecord) (timestamp query response : String) :
    List HistoryRecord :=
  let stored := if 200 < response.length then strTake 200 response ++ "..." else response
  let h := history ++ [⟨timestamp, query, stored⟩]
  if MAX_HISTORY_SIZE < h.length then h.drop 1 else h

/-! ## Lemmas about the competitor scan -/

/-- Whether any lookup variant of competitor `c` occurs in the lowered query. -/
def matchesVariation (query_lower c : String) : Bool :=
  (competitorVariations c).any (fun v => pyIn v query_lower)

/-- Append `x` unless already present: the effect of one successful match. -/
def dedupAppend (acc : List String) (x : String) : List String :=
  if pyHas acc x then acc else acc ++ [x]

/-- First-occurrence deduplication, as the repeated membership check realises it. -/
def firstDedup (l : List String) : List String := l.foldl dedupAppend []

lemma pyHas_append_self (l : List String) (x : String) : pyHas (l ++ [x]) x = true := by
  induction l with
  | nil => simp [pyHas]
  | cons y t ih => simp [pyHas, ih]

lemma pyHas_iff_mem (l : List String) (x : String) : pyHas l x = true ↔ x ∈ l := by
  induction l with
  | nil => simp [pyHas]
  | cons y t ih =>
    simp only [pyHas, Bool.or_eq_true, beq_iff_eq, ih, List.mem_cons]
    exact or_congr_left (by constructor <;> (intro h; exact h.symm))

lemma dedupAppend_idem (acc : List String) (x : String) :
    dedupAppend (dedupAppend acc x) x = dedupAppend acc x := by
  unfold dedupAppend
  cases h : pyHas acc x with
  | true => simp [h]
  | false => simp [h, pyHas_append_self]

lemma variationStep_foldl (qL f : String) (vs : List String) : ∀ acc : List String,
    vs.foldl (variationStep qL f) acc
      = if vs.any (fun v => pyIn v qL) then dedupAppend acc f else acc := by
  induction vs with
  | nil => intro acc; simp
  | cons v vs ih =>
    intro acc
    simp only [List.foldl_cons, List.any_cons, Bool.or_eq_true]
    cases hv : pyIn v qL with
    | false =>
      have hstep : variationStep qL f acc v = acc := by simp [variationStep, hv]
      rw [hstep, ih acc]
      simp [hv]
    | true =>
      have hstep : variationStep qL f acc v = dedupAppend acc f := by
        simp [variationStep, hv, dedupAppend]
      rw [hstep, ih (dedupAppend acc f)]
      cases hrest : vs.any (fun v => pyIn v qL) <;> simp [dedupAppend_idem]

lemma addCompetitor_eq (qL c : String) (acc : List String) :
    addCompetitor qL c acc
      = if matchesVariation qL c then dedupAppend acc (formatCompetitorName c) else acc := by
  unfold addCompetitor matchesVariation
  exact variationStep_foldl qL (formatCompetitorName c) (competitorVariations c) acc

lemma mentioned_foldl (qL : String) (l : List String) : ∀ acc : List String,
    l.foldl (fun acc c => addCompetitor qL c acc) acc
      = ((l.filter (fun c => matchesVariation qL c)).map formatCompetitorName).foldl
          dedupAppend acc := by
  induction l with
  | nil => intro acc; rfl
  | cons c l ih =>
    intro acc
    show l.foldl (fun acc c => addCompetitor qL c acc) (addCompetitor qL c acc) = _
    rw [addCompetitor_eq]
    cases hc : matchesVariation qL c with
    | false =>
      rw [if_neg (by simp), ih acc]
      simp [List.filter_cons, hc]
    | true =>
      rw [if_pos rfl, ih (dedupAppend acc (formatCompetitorName c))]
      simp [List.filter_cons, hc]

lemma foldl_dedupAppend_nodup (l : List String) : ∀ acc : List String,
    acc.Nodup → (l.foldl dedupAppend acc).Nodup := by
  induction l with
  | nil => intro acc h; exact h
  | cons x l ih =>
    intro acc h
    simp only [List.foldl_cons]
    apply ih
    unfold dedupAppend
    cases hx : pyHas acc x with
    | true => exact h
    | false =>
      have hmem : x ∉ acc := fun hm => by simp [(pyHas_iff_mem acc x).mpr hm] at hx
      simp [List.nodup_append, h, hmem]

/-- C1 helper: the competitors field is the first-occurrence deduplication of the
formatted names of the matching competitors, in competitor-list order. -/
lemma competitors_mentioned_eq (query : String) (competitor_list : List String) :
    (analyze_query_intent query competitor_list).competitors_mentioned
      = firstDedup ((competitor_list.filter
          (fun c => matchesVariation (pyLower query) c)).map formatCompetitorName) := by
  show mentionedCompetitors (pyLower query) competitor_list = _
  unfold mentionedCompetitors firstDedup
  exact mentioned_foldl (pyLower query) competitor_list []

/-- C1 (corrected). The claim, as stated, is false at its own example: with the
competitor list ["TechCorp", "InnovateLabs"], the canonical form the code
produces is `str.capitalize` per word ("Techcorp", "Innovatelabs"), not the
dataset casing "TechCorp"/"InnovateLabs"; and the output order follows the
competitor-list order, not the order of first occurrence in the query, as the
second query (which mentions InnovateLabs first) shows. -/
theorem c1_counterexample :
    (analyze_query_intent "Compare TechCorp and InnovateLabs marketing strategies"
        ["TechCorp", "InnovateLabs"]).competitors_mentioned ≠ ["TechCorp", "InnovateLabs"]
    ∧ (analyze_query_intent "Does InnovateLabs or TechCorp have better marketing"
        ["TechCorp", "InnovateLabs"]).competitors_mentioned = ["Techcorp", "Innovatelabs"] := by
  constructor
  · decide
  · decide

/-- C1 (amended): every matched competitor appears exactly once (the list has no
duplicates), formatted by capitalizing each whitespace-separated word of the
stored name, and the output order is the competitor-list order of first match
(first-occurrence deduplication over the list scan); on the spec's example
query the result is ["Techcorp", "Innovatelabs"]. -/
theorem c1_theorem (query : String) (competitor_list : List String) :
    (analyze_query_intent query competitor_list).competitors_mentioned
        = firstDedup ((competitor_list.filter
            (fun c => matchesVariation (pyLower query) c)).map formatCompetitorName)
    ∧ (analyze_query_intent query competitor_list).competitors_mentioned.Nodup
    ∧ (analyze_query_intent "Compare TechCorp and InnovateLabs marketing strategies"
        ["TechCorp", "InnovateLabs"]).competitors_mentioned = ["Techcorp", "Innovatelabs"] := by
  refine ⟨competitors_mentioned_eq query competitor_list, ?_, by decide⟩
  rw [competitors_mentioned_eq query competitor_list]
  exact foldl_dedupAppend_nodup _ _ List.nodup_nil

/-! ## C5: the complexity tier -/

/-- The final complexity assignment of `analyze_query_intent`
(query_analyzer.py:44-49 and 70-75), isolated over the comparison flag `b` and
the indicator count `n`. -/
lemma complexity_chain (b : Bool) (n : Nat) :
    ((if 2 < n ∨ b = true then "complex"
      else if 0 < n then "moderate"
      else if b then "complex" else "simple") = "complex" ↔ (b = true ∨ 2 < n))
    ∧ ((if 2 < n ∨ b = true then "complex"
        else if 0 < n then "moderate"
        else if b then "complex" else "simple") = "moderate"
          ↔ (¬(b = true ∨ 2 < n) ∧ 0 < n))
    ∧ ((if 2 < n ∨ b = true then "complex"
        else if 0 < n then "moderate"
        else if b then "complex" else "simple") = "simple" ↔ (b = false ∧ n = 0)) := by
  cases b <;> by_cases h2 : 2 < n <;> by_cases h0 : 0 < n <;>
    simp [h2, h0] <;> omega

/-- C5 (confirmed): the complexity field is "complex" iff the comparison flag is
set or the competitor and aspect counts sum above 2; "moderate" iff it is not
complex and that sum is positive; "simple" iff no competitors, no aspects and
no comparison. -/
theorem c5_theorem (query : String) (competitor_list : List String) :
    ((analyze_query_intent query competitor_list).query_complexity = "complex"
      ↔ ((analyze_query_intent query competitor_list).comparison_requested = true
         ∨ 2 < (analyze_query_intent query competitor_list).competitors_mentioned.length
             + (analyze_query_intent query competitor_list).aspects_requested.length))
    ∧ ((analyze_query_intent query competitor_list).query_complexity = "moderate"
      ↔ (¬((analyze_query_intent query competitor_list).comparison_requested = true
           ∨ 2 < (analyze_query_intent query competitor_list).competitors_mentioned.length
               + (analyze_query_intent query competitor_list).aspects_requested.length)
         ∧ 0 < (analyze_query_intent query competitor_list).competitors_mentioned.length
             + (analyze_query_intent query competitor_list).aspects_requested.length))
    ∧ ((analyze_query_intent query competitor_list).query_complexity = "simple"
      ↔ ((analyze_query_intent query competitor_list).competitors_mentioned = []
         ∧ (analyze_query_intent query competitor_list).aspects_requested = []
         ∧ (analyze_query_intent query competitor_list).comparison_requested = false)) := by
  obtain ⟨h1, h2, h3⟩ := complexity_chain
    (analyze_query_intent query competitor_list).comparison_requested
    ((analyze_query_intent query competitor_list).competitors_mentioned.length
      + (analyze_query_intent query competitor_list).aspects_requested.length)
  refine ⟨h1, h2, h3.trans ?_⟩
  constructor
  · rintro ⟨hb, hn⟩
    have hm : (analyze_query_intent query competitor_list).competitors_mentioned.length = 0 ∧
        (analyze_query_intent query competitor_list).aspects_requested.length = 0 := by omega
    exact ⟨List.length_eq_zero.mp hm.1, List.length_eq_zero.mp hm.2, hb⟩
  · rintro ⟨hm, ha, hb⟩
    refine ⟨hb, ?_⟩
    rw [hm, ha]
    rfl

/-! ## C6: the sub-goal plan -/

/-- C6 (confirmed): `plan_sub_goals` is a pure function of the descriptor and
equals the specification's four-branch policy with `synthesize_complex_analysis`
appended exactly when the complexity is "complex" (and occurring exactly once
then, never otherwise). -/
theorem c6_theorem (intent : IntentAnalysis) :
    plan_sub_goals intent = specPlanPolicy intent
    ∧ (plan_sub_goals intent).count "synthesize_complex_analysis"
        = (if intent.query_complexity = "complex" then 1 else 0)
    ∧ (∀ other : IntentAnalysis, intent = other →
        plan_sub_goals intent = plan_sub_goals other) := by
  refine ⟨?_, ?_, fun other h => by rw [h]⟩
  · simp only [plan_sub_goals, specPlanPolicy]
    split_ifs <;> simp_all [List.isEmpty_iff]
  · simp only [plan_sub_goals]
    split_ifs <;> decide

/-! ## C9: the retrieval depth -/

/-- C9 (confirmed): the similarity depth is the base constant 5 unless the
complexity is "complex", in which case it is `min 8 (5 + 3)`; it depends only
on the complexity field of the descriptor. -/
theorem c9_theorem (i j : IntentAnalysis) :
    (i.query_complexity = "complex" → retrievalDepth i = min 8 (SIMILARITY_TOP_K + 3))
    ∧ (i.query_complexity ≠ "complex" → retrievalDepth i = SIMILARITY_TOP_K)
    ∧ (i.query_complexity = j.query_complexity → retrievalDepth i = retrievalDepth j)
    ∧ SIMILARITY_TOP_K = 5 ∧ min 8 (SIMILARITY_TOP_K + 3) = 8 := by
  refine ⟨fun h => by simp [retrievalDepth, h], fun h => by simp [retrievalDepth, h],
    fun h => by simp [retrievalDepth, h], rfl, rfl⟩

/-! ## C7: input validation of the generative call -/

/-- C7 (confirmed): an empty, blank or under-3-character query is rejected with
the `except ValueError` message on the first loop pass: no provider call, no
sleep, no retry. -/
theorem c7_theorem (provider : Nat → ProviderStep) (query : String) (max_retries : Nat)
    (hmr : 1 ≤ max_retries) (hq : (pyStrip query).length < 3) :
    safe_query_engine_call provider query max_retries =
      ⟨some (msgValidation (if pyStrip query = "" then msgEmptyQuery else msgTooShort)),
       0, []⟩ := by
  obtain ⟨f, rfl⟩ : ∃ f, max_retries = f + 1 := ⟨max_retries - 1, by omega⟩
  unfold safe_query_engine_call safeQueryAux
  by_cases h0 : pyStrip query = ""
  · rw [if_pos h0, if_pos h0]
  · rw [if_neg h0, if_pos hq, if_neg h0]

/-- Witness for C7 at the spec's own example, the two-character query "hi". -/
theorem c7_witness :
    safe_query_engine_call (fun _ => ProviderStep.ok "some response") "hi" 3 =
      ⟨some (msgValidation msgTooShort), 0, []⟩ := by
  have h := c7_theorem (fun _ => ProviderStep.ok "some response") "hi" 3
    (by decide) (by decide)
  rw [(by decide : (if pyStrip "hi" = "" then msgEmptyQuery else msgTooShort) = msgTooShort)] at h
  exact h

/-! ## C4: rate-limit exhaustion of the generative call -/

/-- Retry-loop invariant for C4: with a provider that always raises a
rate-limited Cohere error, the remaining `fuel` iterations all fire, sleeping
`2 ^ attempt * 2` seconds between consecutive attempts, and the loop ends in
the rate-limited fallback string. -/
lemma c4_aux (provider : Nat → ProviderStep) (query : String) (max_retries : Nat)
    (hq0 : ¬ pyStrip query = "") (hq3 : ¬ (pyStrip query).length < 3)
    (hp : ∀ n, ∃ k m, provider n = .exn (.cohereErr k m)
        ∧ is_rate_limit_error (.cohereErr k m) = true) :
    ∀ (fuel attempt : Nat), attempt + fuel = max_retries → 1 ≤ fuel →
      safeQueryAux provider query max_retries attempt fuel =
        ⟨some msgRateLimited, fuel,
         (List.range' attempt (fuel - 1)).map (fun a => (2 : Rat) ^ a * 2)⟩ := by
  intro fuel
  induction fuel with
  | zero => intro attempt _ h1; omega
  | succ f ih =>
    intro attempt hsum _
    obtain ⟨k, m, hpk, hrate⟩ := hp attempt
    unfold safeQueryAux
    rw [if_neg hq0, if_neg hq3, hpk]
    simp only [hrate, if_true]
    by_cases hlt : attempt < max_retries - 1
    · rw [if_pos hlt, ih (attempt + 1) (by omega) (by omega)]
      have hf : f - 1 + 1 = f := by omega
      refine congrArg (CallTrace.mk (some msgRateLimited) (f + 1)) ?_
      rw [Nat.add_sub_cancel, ← hf, List.range'_succ]
      simp [hf]
    · rw [if_neg hlt]
      have hf0 : f = 0 := by omega
      subst hf0
      rfl

/-- C4 (confirmed): when the provider raises a rate-limit error on every
attempt, `safe_query_engine_call` makes exactly `max_retries` attempts, sleeps
`2 * 2 ^ attempt` seconds between consecutive attempts (base 2 for the
single-query call), and returns the rate-limited "try again in a few minutes"
fallback instead of raising. -/
theorem c4_theorem (provider : Nat → ProviderStep) (query : String) (max_retries : Nat)
    (hmr : 1 ≤ max_retries) (hq : 3 ≤ (pyStrip query).length)
    (hp : ∀ n, ∃ k m, provider n = .exn (.cohereErr k m)
        ∧ is_rate_limit_error (.cohereErr k m) = true) :
    safe_query_engine_call provider query max_retries =
      ⟨some msgRateLimited, max_retries,
       (List.range (max_retries - 1)).map (fun a => (2 : Rat) ^ a * 2)⟩ := by
  have h0 : ¬ pyStrip query = "" := fun h => absurd hq (by rw [h]; decide)
  have key := c4_aux provider query max_retries h0 (by omega) hp max_retries 0 (by omega) hmr
  unfold safe_query_engine_call
  rw [key, List.range_eq_range']

/-- Witness for C4: three attempts against an always-rate-limited provider,
with backoff sleeps of 2 and 4 seconds. -/
theorem c4_witness :
    safe_query_engine_call
        (fun _ => ProviderStep.exn (PyExc.cohereErr CohereKind.tooManyRequests "429"))
        "What is TechCorp" 3 =
      ⟨some msgRateLimited, 3, [2, 4]⟩ := by
  have h := c4_theorem
    (fun _ => ProviderStep.exn (PyExc.cohereErr CohereKind.tooManyRequests "429"))
    "What is TechCorp" 3 (by decide) (by decide)
    (fun n => ⟨CohereKind.tooManyRequests, "429", rfl, by decide⟩)
  rw [(by norm_num [List.range_succ] :
    (List.range (3 - 1)).map (fun a => (2 : Rat) ^ a * 2) = [2, 4])] at h
  exact h

/-! ## C2: authentication errors -/

/-- C2 (counterexample). The claim says the generative call makes exactly one
attempt on an authorization error; in fact `safe_query_engine_call` has no
auth branch, so an `UnauthorizedError` whose message carries no "invalid"
marker is retried like a generic API error: three attempts and the generic
fallback, not an Unauthorized-classified outcome. -/
theorem c2_counterexample :
    (safe_query_engine_call
        (fun _ => ProviderStep.exn (PyExc.cohereErr CohereKind.unauthorizedErr "no access"))
        "What is TechCorp" 3).calls = 3
    ∧ (safe_query_engine_call
        (fun _ => ProviderStep.exn (PyExc.cohereErr CohereKind.unauthorizedErr "no access"))
        "What is TechCorp" 3).result = some msgApiError := by
  constructor
  · decide
  · decide

/-- C2 (amended): the configuration calls classify an authentication error on
the first attempt as Unauthorized — exactly one attempt, no sleep, a
`ValueError("Invalid API key: ...")` propagated. The generative query call has
no such branch: an authentication error whose message carries no
"invalid"/rate-limit/token-limit marker is retried like any unclassified API
error, exhausting all `max_retries = 3` attempts with 1-second sleeps and
returning the generic API-error fallback. -/
theorem c2_theorem (provider : Nat → ProviderStep) (k : CohereKind) (m q : String) :
    ((provider 0 = .exn (.cohereErr k m) →
      is_auth_error (.cohereErr k m) = true →
      is_rate_limit_error (.cohereErr k m) = false →
      configure_embedding_for_search true provider 2 =
          ⟨.raised (.valueError (msgCfgInvalidKey m)), 1, []⟩
        ∧ configure_embedding_for_indexing true provider 2 =
          ⟨.raised (.valueError (msgCfgInvalidKey m)), 1, []⟩))
    ∧ ((∀ n, provider n = .exn (.cohereErr k m)) →
        3 ≤ (pyStrip q).length →
        is_rate_limit_error (.cohereErr k m) = false →
        (pyIn "token" (pyLower m) && pyIn "limit" (pyLower m)) = false →
        pyIn "invalid" (pyLower m) = false →
        safe_query_engine_call provider q 3 = ⟨some msgApiError, 3, [1, 1]⟩) := by
  constructor
  · intro h0 hauth hrate
    constructor <;>
      simp [configure_embedding_for_search, configure_embedding_for_indexing, cfgAux,
        h0, hauth, hrate, isCohereExc, pyExcMsg]
  · intro hall hq hrate htok hinv
    have hq0 : ¬ pyStrip q = "" := fun h => absurd hq (by rw [h]; decide)
    have hq3 : ¬ (pyStrip q).length < 3 := by omega
    simp [safe_query_engine_call, safeQueryAux, hq0, hq3, hall, hrate, htok, hinv]

/-! ## C3: the orchestrator's error surfacing -/

/-- Exceptions that fall through to `except Exception` in
`execute_retrieval_and_analysis` (neither `ValueError` nor `RuntimeError`). -/
def isGenericHandlerExc : PyExc → Bool
  | .valueError _ => false
  | .runtimeError _ => false
  | _ => true

/-- C3 (confirmed): `reason_and_act` is a total function into `String` — no
exception reaches its caller — and the returned string is classified exactly as
the source's handlers do: a `ValueError` from the search-configuration step
becomes the configuration-error message; a `RuntimeError` becomes the
rate-limit, connectivity or technical-issue string according to its message;
any other exception becomes the generic apology; and when configuration
succeeds the result is the enhanced output of the resilient query call. The
final conjunct exercises the happy path at a concrete input. -/
theorem c3_theorem (query : String) (competitor_list : List String) (env : AgentEnv) :
    ((∀ m, (configure_embedding_for_search env.keyConfigured env.cfgSearchSteps 2).outcome
          = .raised (.valueError m) →
        reason_and_act query competitor_list env = msgReactConfigError m))
    ∧ ((∀ m, (configure_embedding_for_search env.keyConfigured env.cfgSearchSteps 2).outcome
          = .raised (.runtimeError m) →
        reason_and_act query competitor_list env =
          (if pyIn "rate limit" (pyLower m) then msgReactRateLimit
           else if pyIn "network" (pyLower m) || pyIn "connection" (pyLower m) then
             msgReactNetwork
           else msgReactTechIssue m)))
    ∧ ((∀ e, (configure_embedding_for_search env.keyConfigured env.cfgSearchSteps 2).outcome
          = .raised e → isGenericHandlerExc e = true →
        reason_and_act query competitor_list env = msgReactUnexpected))
    ∧ (((configure_embedding_for_search env.keyConfigured env.cfgSearchSteps 2).outcome
          = .done
        ∨ (configure_embedding_for_search env.keyConfigured env.cfgSearchSteps 2).outcome
          = .offEnd) →
        reason_and_act query competitor_list env =
          enhance_response_based_on_intent
            ((safe_query_engine_call env.querySteps query 3).result.getD "None")
            (analyze_query_intent query competitor_list))
    ∧ reason_and_act "Tell me about TechCorp marketing" ["TechCorp"]
        ⟨true, fun _ => ProviderStep.ok "configured",
         fun _ => ProviderStep.ok "TechCorp leads the market."⟩
        = "TechCorp leads the market.\n\n---\nCompanies: Techcorp | Focus: marketing" := by
  refine ⟨?_, ?_, ?_, ?_, by decide⟩
  · intro m h
    simp only [reason_and_act, execute_retrieval_and_analysis, h]
  · intro m h
    simp only [reason_and_act, execute_retrieval_and_analysis, h]
  · intro e h hgen
    cases e <;> simp [isGenericHandlerExc] at hgen <;>
      simp only [reason_and_act, execute_retrieval_and_analysis, h]
  · intro h
    rcases h with h | h <;> simp only [reason_and_act, execute_retrieval_and_analysis, h]

/-! ## C8: the agent's bounded history ledger -/

/-- Fold characterization of `_add_to_history`: starting from a state within
the bound, a sequence of appends keeps exactly the `N` most recent entries. -/
lemma agentAdd_foldl (N : Nat) : ∀ (es : List QueryHistoryEntry)
    (acc : List QueryHistoryEntry), acc.length ≤ N →
    es.foldl (agentAddToHistory N) acc = (acc ++ es).drop (acc.length + es.length - N) := by
  intro es
  induction es with
  | nil =>
    intro acc h
    simp only [List.foldl_nil, List.append_nil, List.length_nil, Nat.add_zero]
    rw [Nat.sub_eq_zero_of_le h, List.drop_zero]
  | cons e es ih =>
    intro acc h
    simp only [List.foldl_cons]
    by_cases hfull : N < (acc ++ [e]).length
    · have hlen : acc.length = N := by simp at hfull; omega
      have hstep : agentAddToHistory N acc e = (acc ++ [e]).drop 1 := by
        unfold agentAddToHistory
        rw [if_pos hfull]
      have hlen2 : ((acc ++ [e]).drop 1).length ≤ N := by simp; omega
      rw [hstep, ih _ hlen2,
        ← List.drop_append_of_le_length (show 1 ≤ (acc ++ [e]).length by simp),
        List.drop_drop]
      have harr : (acc ++ [e]) ++ es = acc ++ e :: es := by simp
      rw [harr]
      congr 1
      simp only [List.length_drop, List.length_append, List.length_cons,
        List.length_singleton, List.length_nil]
      omega
    · have hstep : agentAddToHistory N acc e = acc ++ [e] := by
        unfold agentAddToHistory
        rw [if_neg hfull]
      have hlen2 : (acc ++ [e]).length ≤ N := by omega
      rw [hstep, ih _ hlen2]
      have harr : (acc ++ [e]) ++ es = acc ++ e :: es := by simp
      rw [harr]
      congr 1
      simp only [List.length_drop, List.length_append, List.length_cons,
        List.length_singleton, List.length_nil]
      omega

/-- C8 (confirmed): the ledger never exceeds its capacity `N` under any
sequence of appends from empty; appending to a full nonempty ledger evicts
exactly the oldest entry and preserves the order of the rest; `N + 1` appends
from empty leave the last `N` entries with the original oldest gone;
`clear_history` empties the ledger; `get_history_stats` of the empty ledger is
all-zero counts with no average formed (no division reached). -/
theorem c8_theorem (N : Nat) (es : List QueryHistoryEntry) (h : List QueryHistoryEntry)
    (e : QueryHistoryEntry) :
    (es.foldl (agentAddToHistory N) [] = es.drop (es.length - N))
    ∧ ((es.foldl (agentAddToHistory N) []).length ≤ N)
    ∧ (h.length = N → 1 ≤ N → agentAddToHistory N h e = h.drop 1 ++ [e])
    ∧ (es.length = N + 1 → es.foldl (agentAddToHistory N) [] = es.drop 1)
    ∧ clear_history h = []
    ∧ get_history_stats [] = ⟨0, 0, none, none, none, none⟩ := by
  have key := agentAdd_foldl N es [] (by simp)
  simp only [List.nil_append, List.length_nil, Nat.zero_add] at key
  refine ⟨key, ?_, ?_, ?_, rfl, rfl⟩
  · rw [key]
    simp only [List.length_drop]
    omega
  · intro hN h1
    unfold agentAddToHistory
    rw [if_pos (by simp [hN])]
    exact List.drop_append_of_le_length (by omega)
  · intro hlen
    rw [key, hlen]
    congr 1
    omega

/-! ## C10: truncation in the module-level history ledger -/

set_option maxRecDepth 8000 in
/-- C10 (counterexample). The claim's clause "not the full response" fails for a
response that already consists of 200 characters followed by "...": the stored
response is then exactly the full response. -/
theorem c10_counterexample :
    200 < (String.mk (List.replicate 200 'a') ++ "...").length
    ∧ hmAddToHistory [] "2024-01-01 00:00:00" "q" (String.mk (List.replicate 200 'a') ++ "...")
        = [⟨"2024-01-01 00:00:00", "q", String.mk (List.replicate 200 'a') ++ "..."⟩] := by
  constructor
  · decide
  · decide

/-- C10 (amended): the stored entry's response field is the first 200 characters
of the response followed by "..." when the response is longer than 200
characters (coinciding with the full response exactly when the response already
has that shape), and the unchanged response otherwise. -/
theorem c10_theorem (history : List HistoryRecord) (t q r : String) :
    (200 < r.length →
      (hmAddToHistory history t q r).getLast? = some ⟨t, q, strTake 200 r ++ "..."⟩
      ∧ (strTake 200 r ++ "...").length = 203)
    ∧ (¬ 200 < r.length → (hmAddToHistory history t q r).getLast? = some ⟨t, q, r⟩) := by
  constructor
  · intro hr
    constructor
    · simp only [hmAddToHistory]
      rw [if_pos hr]
      split
      · next hfull =>
        rw [List.drop_append_of_le_length (by simp [MAX_HISTORY_SIZE] at hfull; omega),
          List.getLast?_concat]
      · rw [List.getLast?_concat]
    · have hr2 : 200 < r.data.length := hr
      show (r.data.take 200 ++ "...".data).length = 203
      rw [List.length_append, List.length_take,
        Nat.min_eq_left (by omega : 200 ≤ r.data.length)]
      rfl
  · intro hr
    simp only [hmAddToHistory]
    rw [if_neg hr]
    split
    · next hfull =>
      rw [List.drop_append_of_le_length (by simp [MAX_HISTORY_SIZE] at hfull; omega),
        List.getLast?_concat]
    · rw [List.getLast?_concat]


